import Mathlib

/-!
Verification of the TrendScope news-aggregation repository
(DKTJONATHAN/SearchTrends).

The repository is a collection of near-duplicate Express server variants.
This file gives a shallow embedding of the parts of the source relevant to
the frozen claims:

* `src/server.js` holds two variants.  The second one (lines 423-913)
  defines `normalizeText`, `removeDuplicates` (URL set + fuzzy title
  similarity at threshold 0.85), eight site scrapers, `scrapeAllSites`,
  `fetchGNewsKenyan`, `CATEGORY_QUERIES` and the `/api/news/:category`
  handler.  The first one (lines 1-422) defines the `/api/trends`
  aggregate endpoint with its NodeCache (stdTTL 600) and the `/api/export`
  CSV endpoint.  Those are embedded in namespace `Server`.
* `src/unnamed/part_006` holds two further variants.  The first defines a
  different `removeDuplicates` (exact normalized-title set membership plus
  a minimum-length-10 cutoff, no URL check); the second defines
  `scrapeGoogleTrendsRSS` whose catch branch returns hardcoded
  country-trend lists.  Embedded in namespace `Part006`.
* `src/unnamed/part_000` defines `scrapeGoogleTrends` whose catch branch
  returns the empty list.  Embedded in namespace `Part000`.

Modelling conventions: JavaScript strings are Lean `String`s (all string
literals involved are ASCII); string primitives (`toLowerCase`, `trim`,
`replace`, `startsWith`, `includes`) are written as structural functions
on the character list so that every definition evaluates inside the
kernel; timestamps (`Date.now`, ISO strings) are modelled as integers; the
floating-point similarity score is modelled in `ℚ` (every score is a
small rational, and the threshold literal 0.85 of the source is exactly
17/20); network I/O is abstracted as a `FetchResult` argument: `.ok
payload` stands for a successful HTTP response whose parsed content is
`payload`, `.failure msg` for any thrown error (network error, timeout,
rate-limit rejection, parse throw).  A `try/catch` body becomes a total
function matching on that argument.
-/

/-- Outcome of one external HTTP fetch: either a parsed payload or a
thrown error carrying the error message. -/
inductive FetchResult (α : Type) where
  | ok (payload : α)
  | failure (msg : String)
  deriving DecidableEq, Repr

/-- The items a fetch contributes to a fan-out merge: a failed fetch
contributes nothing, a successful one contributes `f payload`. -/
def FetchResult.onOk {α β : Type} (r : FetchResult α) (f : α → List β) : List β :=
  match r with
  | .ok payload => f payload
  | .failure _ => []

/-- What a Source Adapter returns to its caller: a list of items plus the
log lines it emitted (the adapters log failures with their source name). -/
structure AdapterResult (α : Type) where
  items : List α
  log : List String
  deriving DecidableEq, Repr

/-- The Article shape produced by the adapters in `src/server.js`
(second variant): `title`, `link`, `content`, `pubDate`, `source`,
`category`, `image`, `region`.  Fields that JavaScript may leave
`undefined`/`null` are `Option`s; `pubDate` (an ISO timestamp string in
the source) is modelled as an integer time value. -/
structure Article where
  title : Option String
  link : Option String
  content : Option String
  pubDate : Option Int
  source : Option String
  category : Option String
  image : Option String
  region : Option String
  deriving DecidableEq, Repr

/-! ### Character-level models of the JavaScript string primitives -/

/-- `text.toLowerCase()` (ASCII). -/
def toLowerStr (s : String) : String := (s.toList.map Char.toLower).asString

/-- `String.prototype.trim`: drop leading and trailing whitespace. -/
def trimChars (l : List Char) : List Char :=
  ((l.dropWhile Char.isWhitespace).reverse.dropWhile Char.isWhitespace).reverse

/-- `s.startsWith(pre)`. -/
def startsWithStr (s pre : String) : Bool := pre.toList.isPrefixOf s.toList

/-- `haystack.includes(pattern)` on character lists. -/
def containsSub (pat : List Char) : List Char → Bool
  | [] => pat.isPrefixOf []
  | a :: t => pat.isPrefixOf (a :: t) || containsSub pat t

/-- `s.includes(pat)`. -/
def containsStr (s pat : String) : Bool := containsSub pat.toList s.toList

/-- `normalizeText` from src/server.js line 454:
`text.toLowerCase().replace(/[^\w\s]/g, '').trim()` — lower-case, keep
only word characters (ASCII alphanumeric or underscore) and whitespace,
then trim. -/
def normalizeText (text : String) : String :=
  (trimChars ((toLowerStr text).toList.filter
      (fun c => c.isAlphanum || c == '_' || c.isWhitespace))).asString

/-- `first.replace(/\s+/g, '')` — the whitespace stripping done at the top
of string-similarity's `compareTwoStrings`. -/
def stripSpaces (s : String) : String :=
  (s.toList.filter (fun c => !c.isWhitespace)).asString

/-- The adjacent character pairs of a list, in order; models the
`substring(i, i + 2)` bigrams of the string-similarity library. -/
def bigramList : List Char → List (Char × Char)
  | a :: b :: rest => (a, b) :: bigramList (b :: rest)
  | _ => []

/-- The multiset of bigrams of a string; the library counts bigrams with
multiplicity in a `Map`, which is exactly multiset semantics. -/
def bigrams (s : String) : Multiset (Char × Char) :=
  (bigramList s.toList : List (Char × Char))

/-- The threshold literal `0.85` of src/server.js line 472, an exact
rational. -/
def similarityThreshold : ℚ := mkRat 17 20

/-- `stringSimilarity.compareTwoStrings` (string-similarity v4, the
Sorensen-Dice coefficient), as called by `removeDuplicates` in
src/server.js line 472: strip whitespace from both strings; identical
strings score 1; strings shorter than 2 score 0; otherwise the rational
`2 * |bigrams a ∩ bigrams b| / (|a| + |b| - 2)` (multiset
intersection), built with `mkRat` so that it evaluates by reduction. -/
def compareTwoStrings (a b : String) : ℚ :=
  if stripSpaces a = stripSpaces b then 1
  else if (stripSpaces a).length < 2 ∨ (stripSpaces b).length < 2 then 0
  else mkRat (2 * ((bigrams (stripSpaces a) ∩ bigrams (stripSpaces b)).card : Int))
      ((stripSpaces a).length + (stripSpaces b).length - 2)

theorem compareTwoStrings_self (a : String) : compareTwoStrings a a = 1 := by
  simp [compareTwoStrings]

theorem compareTwoStrings_comm (a b : String) :
    compareTwoStrings a b = compareTwoStrings b a := by
  unfold compareTwoStrings
  by_cases h : stripSpaces a = stripSpaces b
  · rw [if_pos h, if_pos h.symm]
  · rw [if_neg h, if_neg (Ne.symm h)]
    by_cases h2 : (stripSpaces a).length < 2 ∨ (stripSpaces b).length < 2
    · rw [if_pos h2, if_pos (Or.comm.mp h2)]
    · rw [if_neg h2, if_neg (fun hh => h2 (Or.comm.mp hh))]
      rw [Multiset.inter_comm, Nat.add_comm]

theorem similarityThreshold_lt_one : similarityThreshold < 1 := by decide

namespace Server

/-- `removeDuplicates` from src/server.js lines 459-484, with the two seen
`Set`s made explicit accumulator arguments.  For each article in input
order: skip it if `title` or `link` is falsy — the guard `!article.title
|| !article.link` is JS truthiness, so a missing field *and* an
empty-string field are both skipped; skip it if its `link` is a seen URL;
skip it if some seen normalized title has
`compareTwoStrings(existingTitle, normTitle) > 0.85`; otherwise record its
link and normalized title and append it. -/
def removeDuplicatesAux : List Article → List String → List String → List Article
  | [], _, _ => []
  | a :: rest, seenUrls, seenTitles =>
    match a.title, a.link with
    | some t, some l =>
      if t = "" ∨ l = "" then removeDuplicatesAux rest seenUrls seenTitles
      else if l ∈ seenUrls then removeDuplicatesAux rest seenUrls seenTitles
      else if seenTitles.any
          (fun e => decide (similarityThreshold < compareTwoStrings e (normalizeText t))) then
        removeDuplicatesAux rest seenUrls seenTitles
      else a :: removeDuplicatesAux rest (l :: seenUrls) (normalizeText t :: seenTitles)
    | _, _ => removeDuplicatesAux rest seenUrls seenTitles

/-- `removeDuplicates(articles)` — both seen sets start empty. -/
def removeDuplicates (articles : List Article) : List Article :=
  removeDuplicatesAux articles [] []

/-- The similarity test against a list of seen titles may put the
candidate title on either side, because the score is symmetric. -/
theorem any_similar_comm (nt : String) (ts : List String) :
    ts.any (fun e => decide (similarityThreshold < compareTwoStrings e nt)) =
      ts.any (fun e => decide (similarityThreshold < compareTwoStrings nt e)) := by
  induction ts with
  | nil => rfl
  | cons x xs ih => simp only [List.any_cons, ih, compareTwoStrings_comm x nt]

/-- A title that is literally present among the seen titles always trips
the similarity test (identical strings score 1 > 0.85). -/
theorem any_similar_of_mem {nt : String} {ts : List String} (h : nt ∈ ts) :
    ts.any (fun e => decide (similarityThreshold < compareTwoStrings e nt)) = true := by
  refine List.any_eq_true.mpr ⟨nt, h, ?_⟩
  rw [decide_eq_true_eq, compareTwoStrings_self]
  exact similarityThreshold_lt_one

/-- Every article retained by the deduplicator has both `title` and
`link` present (the guard on line 465 skips the others before any other
processing). -/
theorem mem_removeDuplicatesAux_fields :
    ∀ (l : List Article) (us ts : List String) (a : Article),
      a ∈ removeDuplicatesAux l us ts → a.title ≠ none ∧ a.link ≠ none := by
  intro l
  induction l with
  | nil => intro us ts a ha; simp [removeDuplicatesAux] at ha
  | cons hd rest ih =>
    intro us ts a ha
    rcases h1 : hd.title with _ | t <;> rcases h2 : hd.link with _ | lk <;>
      simp only [removeDuplicatesAux, h1, h2] at ha
    · exact ih _ _ _ ha
    · exact ih _ _ _ ha
    · exact ih _ _ _ ha
    · split at ha
      · exact ih _ _ _ ha
      · split at ha
        · exact ih _ _ _ ha
        · split at ha
          · exact ih _ _ _ ha
          · rcases List.mem_cons.mp ha with rfl | ha'
            · exact ⟨by simp [h1], by simp [h2]⟩
            · exact ih _ _ _ ha'

/-- A retained article's normalized title was not among the seen titles
passed in: had it been, the similarity test would have dropped it. -/
theorem mem_removeDuplicatesAux_norm_not_seen :
    ∀ (l : List Article) (us ts : List String) (a : Article) (t : String),
      a ∈ removeDuplicatesAux l us ts → a.title = some t → normalizeText t ∉ ts := by
  intro l
  induction l with
  | nil => intro us ts a t ha; simp [removeDuplicatesAux] at ha
  | cons hd rest ih =>
    intro us ts a t ha hat
    rcases h1 : hd.title with _ | t0 <;> rcases h2 : hd.link with _ | lk <;>
      simp only [removeDuplicatesAux, h1, h2] at ha
    · exact ih _ _ _ _ ha hat
    · exact ih _ _ _ _ ha hat
    · exact ih _ _ _ _ ha hat
    · split at ha
      · exact ih _ _ _ _ ha hat
      · split at ha
        · exact ih _ _ _ _ ha hat
        · split at ha
          · exact ih _ _ _ _ ha hat
          · rename_i hnotsim
            rcases List.mem_cons.mp ha with rfl | ha'
            · rw [h1] at hat
              cases hat
              intro hmem
              exact hnotsim (any_similar_of_mem hmem)
            · intro hmem
              exact (ih _ _ _ _ ha' hat) (List.mem_cons_of_mem _ hmem)

/-- Two retained articles with the same normalized title are the same
article: at most one article per normalized title survives. -/
theorem mem_removeDuplicatesAux_norm_inj :
    ∀ (l : List Article) (us ts : List String) (a b : Article) (ta tb : String),
      a ∈ removeDuplicatesAux l us ts → b ∈ removeDuplicatesAux l us ts →
      a.title = some ta → b.title = some tb →
      normalizeText ta = normalizeText tb → a = b := by
  intro l
  induction l with
  | nil => intro us ts a b ta tb ha; simp [removeDuplicatesAux] at ha
  | cons hd rest ih =>
    intro us ts a b ta tb ha hb hat hbt heq
    rcases h1 : hd.title with _ | t0 <;> rcases h2 : hd.link with _ | lk <;>
      simp only [removeDuplicatesAux, h1, h2] at ha hb
    · exact ih _ _ _ _ _ _ ha hb hat hbt heq
    · exact ih _ _ _ _ _ _ ha hb hat hbt heq
    · exact ih _ _ _ _ _ _ ha hb hat hbt heq
    · by_cases hguard : t0 = "" ∨ lk = ""
      · rw [if_pos hguard] at ha hb
        exact ih _ _ _ _ _ _ ha hb hat hbt heq
      · rw [if_neg hguard] at ha hb
        by_cases hurl : lk ∈ us
        · rw [if_pos hurl] at ha hb
          exact ih _ _ _ _ _ _ ha hb hat hbt heq
        · rw [if_neg hurl] at ha hb
          by_cases hsim : (ts.any fun e =>
              decide (similarityThreshold < compareTwoStrings e (normalizeText t0))) = true
          · rw [if_pos hsim] at ha hb
            exact ih _ _ _ _ _ _ ha hb hat hbt heq
          · rw [if_neg hsim] at ha hb
            rcases List.mem_cons.mp ha with rfl | ha' <;>
              rcases List.mem_cons.mp hb with rfl | hb'
            · rfl
            · rw [h1] at hat; cases hat
              have := mem_removeDuplicatesAux_norm_not_seen _ _ _ _ _ hb' hbt
              rw [← heq] at this
              exact absurd (List.mem_cons_self _ _) this
            · rw [h1] at hbt; cases hbt
              have := mem_removeDuplicatesAux_norm_not_seen _ _ _ _ _ ha' hat
              rw [heq] at this
              exact absurd (List.mem_cons_self _ _) this
            · exact ih _ _ _ _ _ _ ha' hb' hat hbt heq

/-- Second-pass stability: re-running the deduplicator on its own output,
with the same starting seen sets, changes nothing.  Every article it
retained already passed the very checks the second pass re-applies, and
the seen sets evolve identically. -/
theorem removeDuplicatesAux_idem :
    ∀ (l : List Article) (us ts : List String),
      removeDuplicatesAux (removeDuplicatesAux l us ts) us ts =
        removeDuplicatesAux l us ts := by
  intro l
  induction l with
  | nil => intro us ts; simp [removeDuplicatesAux]
  | cons hd rest ih =>
    intro us ts
    rcases h1 : hd.title with _ | t0 <;> rcases h2 : hd.link with _ | lk <;>
      simp only [removeDuplicatesAux, h1, h2]
    · exact ih _ _
    · exact ih _ _
    · exact ih _ _
    · split
      · exact ih _ _
      · split
        · exact ih _ _
        · split
          · exact ih _ _
          · rename_i hguard hurl hsim
            conv_lhs => rw [removeDuplicatesAux]
            simp only [h1, h2]
            rw [if_neg hguard, if_neg hurl, if_neg hsim]
            rw [ih _ _]

end Server

/-- Reference deduplication process transcribed from the claim wording
(spec section 4.3), for comparison with `Server.removeDuplicates`: process
Articles in input order; drop an Article iff its URL matches a seen URL or
its normalized title scores above 0.85 against some previously retained
normalized title (the candidate title is written first here — the claim
calls the score symmetric); otherwise append it and record its URL and
normalized title.  The claim's Articles carry both fields (spec section
3), which the equivalence theorem takes as a hypothesis; `getD ""`
extracts them. -/
def specDedupAux : List Article → List String → List String → List Article
  | [], _, _ => []
  | a :: rest, seenUrls, seenTitles =>
    if a.link.getD "" ∈ seenUrls ∨
        seenTitles.any (fun e =>
          decide (similarityThreshold <
            compareTwoStrings (normalizeText (a.title.getD "")) e)) = true then
      specDedupAux rest seenUrls seenTitles
    else
      a :: specDedupAux rest (a.link.getD "" :: seenUrls)
        (normalizeText (a.title.getD "") :: seenTitles)

/-- On lists of Articles with both `title` and `link` present and
non-empty (JS-truthy, the data-model invariant — `title` is non-empty
text and `link` a URL), the source deduplicator and the claim's reference
process agree, for any starting seen sets: the truthiness guard never
fires, and the remaining logic is the claim's rule. -/
theorem removeDuplicatesAux_eq_spec :
    ∀ (l : List Article) (us ts : List String),
      (∀ x ∈ l, x.title ≠ none ∧ x.title ≠ some "" ∧
        x.link ≠ none ∧ x.link ≠ some "") →
      Server.removeDuplicatesAux l us ts = specDedupAux l us ts := by
  intro l
  induction l with
  | nil => intro us ts _; rfl
  | cons hd rest ih =>
    intro us ts h
    obtain ⟨hht, hhte, hhl, hhle⟩ := h hd (List.mem_cons_self _ _)
    have hrest : ∀ x ∈ rest, x.title ≠ none ∧ x.title ≠ some "" ∧
        x.link ≠ none ∧ x.link ≠ some "" :=
      fun x hx => h x (List.mem_cons_of_mem _ hx)
    rcases h1 : hd.title with _ | t0
    · exact absurd h1 hht
    rcases h2 : hd.link with _ | lk
    · exact absurd h2 hhl
    have ht0 : t0 ≠ "" := by rintro rfl; rw [h1] at hhte; exact hhte rfl
    have hlk : lk ≠ "" := by rintro rfl; rw [h2] at hhle; exact hhle rfl
    simp only [Server.removeDuplicatesAux, specDedupAux, h1, h2, Option.getD_some]
    rw [if_neg (by simp [ht0, hlk])]
    by_cases hurl : lk ∈ us
    · rw [if_pos hurl, if_pos (Or.inl hurl)]
      exact ih _ _ hrest
    · rw [if_neg hurl]
      by_cases hsim : (ts.any fun e =>
          decide (similarityThreshold < compareTwoStrings e (normalizeText t0))) = true
      · rw [if_pos hsim, if_pos (Or.inr ((Server.any_similar_comm _ _).symm.trans hsim))]
        exact ih _ _ hrest
      · rw [if_neg hsim,
          if_neg (by
            rintro (hl | hr)
            · exact hurl hl
            · exact hsim ((Server.any_similar_comm _ _).trans hr))]
        rw [ih _ _ hrest]

namespace Part006

/-- `removeDuplicates` from src/unnamed/part_006 lines 126-136, with the
seen `Set` an explicit accumulator.  This variant keeps an article iff its
normalized title (`article.title.toLowerCase().replace(/[^\w\s]/g,
'').trim()`) is not already seen and has length at least 10; there is no
URL check and no similarity scoring.  `article.title.toLowerCase()`
throws a TypeError when `title` is missing, which aborts the whole
`filter`; that is modelled by an `Option` result, `none` standing for the
thrown exception. -/
def removeDuplicatesAux : List Article → List String → Option (List Article)
  | [], _ => some []
  | a :: rest, seen =>
    match a.title with
    | none => none
    | some t =>
      if normalizeText t ∈ seen ∨ (normalizeText t).length < 10 then
        removeDuplicatesAux rest seen
      else (removeDuplicatesAux rest (normalizeText t :: seen)).map (fun u => a :: u)

/-- `removeDuplicates(articles)` of part_006 — seen set starts empty. -/
def removeDuplicates (articles : List Article) : Option (List Article) :=
  removeDuplicatesAux articles []

/-- Every article kept by the part_006 deduplicator has a normalized
title of length at least 10 (the `normalizedTitle.length < 10` branch
rejects the rest). -/
theorem mem_removeDuplicatesAux_long :
    ∀ (l : List Article) (seen : List String) (out : List Article) (a : Article) (t : String),
      removeDuplicatesAux l seen = some out → a ∈ out → a.title = some t →
      ¬ (normalizeText t).length < 10 := by
  intro l
  induction l with
  | nil =>
    intro seen out a t hout ha
    simp only [removeDuplicatesAux, Option.some.injEq] at hout
    rw [← hout] at ha
    simp at ha
  | cons hd rest ih =>
    intro seen out a t hout ha hat
    rcases h1 : hd.title with _ | t0 <;> simp only [removeDuplicatesAux, h1] at hout
    · exact absurd hout (by simp)
    · split at hout
      · exact ih _ _ _ _ hout ha hat
      · rename_i hcond
        rcases hrec : removeDuplicatesAux rest (normalizeText t0 :: seen) with _ | u
        · rw [hrec] at hout; simp at hout
        · rw [hrec] at hout
          simp only [Option.map, Option.some.injEq] at hout
          rw [← hout] at ha
          rcases List.mem_cons.mp ha with rfl | ha'
          · rw [h1] at hat; cases hat
            intro hshort
            exact hcond (Or.inr hshort)
          · exact ih _ _ _ _ hrec ha' hat

/-- Second-pass stability for the part_006 deduplicator: if a first pass
succeeded with output `out`, running the deduplicator on `out` with the
same starting seen set succeeds and returns `out` unchanged. -/
theorem removeDuplicatesAux_second_pass :
    ∀ (l : List Article) (seen : List String) (out : List Article),
      removeDuplicatesAux l seen = some out →
      removeDuplicatesAux out seen = some out := by
  intro l
  induction l with
  | nil =>
    intro seen out hout
    simp only [removeDuplicatesAux, Option.some.injEq] at hout
    rw [← hout]
    rfl
  | cons hd rest ih =>
    intro seen out hout
    rcases h1 : hd.title with _ | t0 <;> simp only [removeDuplicatesAux, h1] at hout
    · exact absurd hout (by simp)
    · split at hout
      · exact ih _ _ hout
      · rename_i hcond
        rcases hrec : removeDuplicatesAux rest (normalizeText t0 :: seen) with _ | u
        · rw [hrec] at hout; simp at hout
        · rw [hrec] at hout
          simp only [Option.map, Option.some.injEq] at hout
          rw [← hout]
          simp only [removeDuplicatesAux, h1]
          rw [if_neg hcond, ih _ _ hrec]
          rfl

end Part006

/-- One scraped card element as cheerio presents it to the scraper
bodies: the (already trimmed) text of the title node — `.text()` always
returns a string, possibly empty — and the `href`/`src` attributes, which
are `undefined` when absent. -/
structure RawCard where
  title : String
  link : Option String
  image : Option String
  deriving DecidableEq, Repr

namespace Server

/-- Common card-to-article body of the eight site scrapers of
src/server.js lines 489-714.  An article is built when both title and
link are truthy (non-empty).  `base = some b` models the scrapers that
prefix relative links (`link.startsWith('http') ? link : base + link`);
`useImage = false` models the scrapers that never read an image
attribute (or set `image: null` outright). -/
def scrapedArticle (base : Option String) (src cat : String) (useImage : Bool)
    (now : Int) (c : RawCard) : Option Article :=
  match c.link with
  | none => none
  | some l =>
    if c.title ≠ "" ∧ l ≠ "" then
      some { title := some c.title,
             link := some (match base with
               | some b => if startsWithStr l "http" then l else b ++ l
               | none => l),
             content := none,
             pubDate := some now,
             source := some src,
             category := some cat,
             image := if useImage then (match c.image with
               | some i => if i ≠ "" then some i else none
               | none => none) else none,
             region := some "kenyan" }
    else none

/-- Success-path items of `scrapeKenyansCo` (src/server.js 489-516). -/
def kenyansItems (now : Int) (cards : List RawCard) : List Article :=
  cards.filterMap
    (scrapedArticle (some "https://www.kenyans.co.ke") "kenyans.co.ke" "general" true now)

/-- `scrapeKenyansCo` (src/server.js 489-516): on success, the mapped
cards; on any thrown failure, a log line with the source identity and an
empty list. -/
def scrapeKenyansCo (now : Int) (r : FetchResult (List RawCard)) : AdapterResult Article :=
  match r with
  | .ok cards => ⟨kenyansItems now cards, []⟩
  | .failure msg => ⟨[], ["Kenyans.co.ke scraping error: " ++ msg]⟩

/-- Success-path items of `scrapeMpasho` (src/server.js 519-545). -/
def mpashoItems (now : Int) (cards : List RawCard) : List Article :=
  cards.filterMap (scrapedArticle none "mpasho.co.ke" "entertainment" true now)

/-- `scrapeMpasho` (src/server.js 519-545). -/
def scrapeMpasho (now : Int) (r : FetchResult (List RawCard)) : AdapterResult Article :=
  match r with
  | .ok cards => ⟨mpashoItems now cards, []⟩
  | .failure msg => ⟨[], ["Mpasho.co.ke scraping error: " ++ msg]⟩

/-- Success-path items of `scrapeGhafla` (src/server.js 548-574). -/
def ghaflaItems (now : Int) (cards : List RawCard) : List Article :=
  cards.filterMap (scrapedArticle none "ghafla.com" "entertainment" true now)

/-- `scrapeGhafla` (src/server.js 548-574). -/
def scrapeGhafla (now : Int) (r : FetchResult (List RawCard)) : AdapterResult Article :=
  match r with
  | .ok cards => ⟨ghaflaItems now cards, []⟩
  | .failure msg => ⟨[], ["Ghafla.com scraping error: " ++ msg]⟩

/-- Success-path items of `scrapePulseSports` (src/server.js 577-603). -/
def pulseSportsItems (now : Int) (cards : List RawCard) : List Article :=
  cards.filterMap (scrapedArticle none "pulsesports.co.ke" "sports" true now)

/-- `scrapePulseSports` (src/server.js 577-603). -/
def scrapePulseSports (now : Int) (r : FetchResult (List RawCard)) : AdapterResult Article :=
  match r with
  | .ok cards => ⟨pulseSportsItems now cards, []⟩
  | .failure msg => ⟨[], ["PulseSports.co.ke scraping error: " ++ msg]⟩

/-- Success-path items of `scrapeBusinessDaily` (src/server.js 606-632);
it sets `image: null`. -/
def businessDailyItems (now : Int) (cards : List RawCard) : List Article :=
  cards.filterMap
    (scrapedArticle (some "https://www.businessdailyafrica.com")
      "businessdailyafrica.com" "business" false now)

/-- `scrapeBusinessDaily` (src/server.js 606-632). -/
def scrapeBusinessDaily (now : Int) (r : FetchResult (List RawCard)) : AdapterResult Article :=
  match r with
  | .ok cards => ⟨businessDailyItems now cards, []⟩
  | .failure msg => ⟨[], ["BusinessDailyAfrica.com scraping error: " ++ msg]⟩

/-- Success-path items of `scrapeStandardMedia` (src/server.js 635-660);
it sets `image: null`. -/
def standardMediaItems (now : Int) (cards : List RawCard) : List Article :=
  cards.filterMap
    (scrapedArticle (some "https://www.standardmedia.co.ke")
      "standardmedia.co.ke" "news" false now)

/-- `scrapeStandardMedia` (src/server.js 635-660). -/
def scrapeStandardMedia (now : Int) (r : FetchResult (List RawCard)) : AdapterResult Article :=
  match r with
  | .ok cards => ⟨standardMediaItems now cards, []⟩
  | .failure msg => ⟨[], ["StandardMedia scraping error: " ++ msg]⟩

/-- Success-path items of `scrapeRoyalMedia` (src/server.js 663-687);
its article object carries no image key. -/
def royalMediaItems (now : Int) (cards : List RawCard) : List Article :=
  cards.filterMap
    (scrapedArticle (some "https://www.royalmedia.co.ke") "royalmedia.co.ke" "news" false now)

/-- `scrapeRoyalMedia` (src/server.js 663-687). -/
def scrapeRoyalMedia (now : Int) (r : FetchResult (List RawCard)) : AdapterResult Article :=
  match r with
  | .ok cards => ⟨royalMediaItems now cards, []⟩
  | .failure msg => ⟨[], ["RoyalMedia scraping error: " ++ msg]⟩

/-- Success-path items of `scrapeMediaMax` (src/server.js 690-714); no
link prefixing, no image key. -/
def mediaMaxItems (now : Int) (cards : List RawCard) : List Article :=
  cards.filterMap (scrapedArticle none "mediamaxnetwork.co.ke" "news" false now)

/-- `scrapeMediaMax` (src/server.js 690-714). -/
def scrapeMediaMax (now : Int) (r : FetchResult (List RawCard)) : AdapterResult Article :=
  match r with
  | .ok cards => ⟨mediaMaxItems now cards, []⟩
  | .failure msg => ⟨[], ["MediaMax scraping error: " ++ msg]⟩

/-- The fetch outcome of each of the eight scrape targets, one field per
adapter in the static order of the `Promise.all` array of
src/server.js lines 777-786. -/
structure ScrapeOutcomes where
  kenyans : FetchResult (List RawCard)
  mpasho : FetchResult (List RawCard)
  ghafla : FetchResult (List RawCard)
  pulse : FetchResult (List RawCard)
  business : FetchResult (List RawCard)
  standard : FetchResult (List RawCard)
  royal : FetchResult (List RawCard)
  mediamax : FetchResult (List RawCard)
  deriving DecidableEq, Repr

/-- `scrapeAllSites` (src/server.js 767-797): `Promise.all` over the
eight scrapers — none of which ever rejects, each converts its own
failure to `[]` — then concatenation of the destructured results in the
same static order. -/
def scrapeAllSites (now : Int) (o : ScrapeOutcomes) : List Article :=
  (scrapeKenyansCo now o.kenyans).items ++
  (scrapeMpasho now o.mpasho).items ++
  (scrapeGhafla now o.ghafla).items ++
  (scrapePulseSports now o.pulse).items ++
  (scrapeBusinessDaily now o.business).items ++
  (scrapeStandardMedia now o.standard).items ++
  (scrapeRoyalMedia now o.royal).items ++
  (scrapeMediaMax now o.mediamax).items

/-- One article object of the GNews API response
(`response.data.articles`), with the fields read by `fetchGNewsKenyan`. -/
structure GNewsArticle where
  title : Option String
  url : Option String
  description : Option String
  publishedAt : Option Int
  sourceName : String
  image : Option String
  deriving DecidableEq, Repr

/-- `fetchGNewsKenyan` (src/server.js 717-749): returns `[]` with a
warning when the `GNEWS_API` key is unset; on success maps each API
article to an Article whose category is `politics` when the query
mentions politics, else `general`; on failure logs and returns `[]`. -/
def fetchGNewsKenyan (categoryQuery : String) (keySet : Bool)
    (r : FetchResult (List GNewsArticle)) : AdapterResult Article :=
  if keySet = false then ⟨[], ["GNEWS_API key not set"]⟩
  else
    match r with
    | .ok arts =>
      ⟨arts.map (fun art =>
        { title := art.title,
          link := art.url,
          content := art.description,
          pubDate := art.publishedAt,
          source := some art.sourceName,
          category := some (if containsStr categoryQuery "politics" then "politics" else "general"),
          image := art.image,
          region := some "kenyan" }), []⟩
    | .failure msg => ⟨[], ["GNews API fetch error: " ++ msg]⟩

/-- `CATEGORY_QUERIES` (src/server.js 754-764). -/
def CATEGORY_QUERIES : List (String × String) :=
  [("general", "Kenya"),
   ("politics", "Kenya politics OR government"),
   ("business", "Kenya business OR economy OR finance"),
   ("sports", "Kenya sports OR football OR athletics"),
   ("entertainment", "Kenya entertainment OR music OR movies"),
   ("technology", "Kenya technology OR digital OR innovation"),
   ("health", "Kenya health OR healthcare OR medicine"),
   ("lifestyle", "Kenya lifestyle OR fashion OR culture"),
   ("news", "Kenya news")]

/-- `Object.keys(CATEGORY_QUERIES)` — the valid category identifiers. -/
def validCategories : List String := CATEGORY_QUERIES.map Prod.fst

/-- Sort key of the comparator `new Date(b.pubDate) - new Date(a.pubDate)`
(src/server.js line 817); an absent date is modelled as epoch 0 (no claim
depends on the sort order). -/
def pubVal (a : Article) : Int := a.pubDate.getD 0

/-- Stable insertion step for the newest-first sort. -/
def insertByDateDesc (a : Article) : List Article → List Article
  | [] => [a]
  | b :: rest =>
    if pubVal b < pubVal a then a :: b :: rest else b :: insertByDateDesc a rest

/-- `uniqueArticles.sort((a, b) => new Date(b.pubDate) - new
Date(a.pubDate))` — a stable newest-first sort. -/
def sortByPubDateDesc (l : List Article) : List Article :=
  l.foldr insertByDateDesc []

/-- External inputs of one request: the request time, the eight scrape
outcomes, whether the GNews key is configured, and the GNews fetch
outcome. -/
structure Env where
  now : Int
  scrapes : ScrapeOutcomes
  gnewsKey : Bool
  gnews : FetchResult (List GNewsArticle)
  deriving DecidableEq, Repr

/-- `getNewsByCategory` (src/server.js 800-821): fan out to the scrapers
and GNews, keep the articles whose category contains the requested one
(case-insensitive substring), deduplicate, sort newest first, cap at
30. -/
def getNewsByCategory (category : String) (env : Env) : List Article :=
  let query := (CATEGORY_QUERIES.lookup category).getD "Kenya"
  let scrapedArticles := scrapeAllSites env.now env.scrapes
  let gnewsArticles := (fetchGNewsKenyan query env.gnewsKey env.gnews).items
  let combinedArticles := (scrapedArticles ++ gnewsArticles).filter (fun article =>
    match article.category with
    | none => false
    | some c => containsStr (toLowerStr c) (toLowerStr category))
  let uniqueArticles := removeDuplicates combinedArticles
  (sortByPubDateDesc uniqueArticles).take 30

/-- The body of a successful `/api/news/:category` response
(src/server.js 845-851). -/
structure CategoryNewsResponse where
  category : String
  count : Nat
  items : List Article
  lastUpdated : Int
  deriving DecidableEq, Repr

/-- Response of the `/api/news/:category` handler: a 400 carrying the
valid category list, or a 200 carrying the response body. -/
inductive NewsApiResult where
  | badRequest (validCategories : List String)
  | ok (resp : CategoryNewsResponse)
  deriving DecidableEq, Repr

/-- Whether a `/api/news/:category` response is the 400 rejection. -/
def NewsApiResult.isBadRequest : NewsApiResult → Bool
  | .badRequest _ => true
  | .ok _ => false

/-- Result of one `/api/news/:category` request: the response, the cache
as left behind, and whether the upstream fan-out was dispatched (`true`
exactly when `getNewsByCategory` ran). -/
structure NewsApiOutcome where
  result : NewsApiResult
  cache : List (String × CategoryNewsResponse)
  fetched : Bool
  deriving DecidableEq, Repr

/-- The `/api/news/:category` handler (src/server.js 824-859): lower-case
the path parameter; reject with a 400 listing `validCategories` when it
is not a key of `CATEGORY_QUERIES`; otherwise serve the cache entry
`news-category-<cat>` when present, else run `getNewsByCategory`, cache
and return the assembled response.  The cache is the assoc list of
stored entries (expiry is orthogonal to the claims about this
handler). -/
def newsCategoryApi (rawCategory : String)
    (cache : List (String × CategoryNewsResponse)) (env : Env) : NewsApiOutcome :=
  let category := toLowerStr rawCategory
  if category ∉ validCategories then
    ⟨.badRequest validCategories, cache, false⟩
  else
    match cache.lookup ("news-category-" ++ category) with
    | some cached => ⟨.ok cached, cache, false⟩
    | none =>
      let articles := getNewsByCategory category env
      let resp : CategoryNewsResponse :=
        ⟨category, articles.length, articles, env.now⟩
      ⟨.ok resp, ("news-category-" ++ category, resp) :: cache, true⟩

/-! ### The `/api/trends` aggregate and `/api/export` endpoints
(src/server.js, first variant, lines 1-422) -/

/-- Source type of one entry of the `categories` array of the
`/api/trends` handler (src/server.js 251-264). -/
inductive TrendSourceType where
  | pytrends
  | news
  | rss
  deriving DecidableEq, Repr

/-- The twelve category entries of src/server.js 251-264 (key and source
type; the query codes and feed URLs live inside the abstracted
adapters). -/
def trendsCategories : List (String × TrendSourceType) :=
  [("kenya", .pytrends), ("worldwide", .pytrends), ("googletrends", .pytrends),
   ("news", .news), ("technology", .news), ("entertainment", .news),
   ("sports", .news), ("lifestyle", .rss), ("business", .news),
   ("health", .rss), ("science", .rss), ("fashion", .rss)]

/-- The `/api/trends` response envelope (src/server.js 290-302): success
flag, assembly timestamp, the constant `cached: false` marker, and the
per-category keyword lists spread into the object (the constant
`sources_used`/`no_fallbacks` fields carry no request-dependent data and
are omitted). -/
structure TrendsResponse where
  success : Bool
  timestamp : Int
  cached : Bool
  cats : List (String × List String)
  deriving DecidableEq, Repr

/-- A NodeCache slot for the `trends` key: the stored value and its
expiry time (`stdTTL: 600`, src/server.js line 13). -/
structure TrendsCacheEntry where
  value : TrendsResponse
  expiresAt : Int
  deriving DecidableEq, Repr

/-- node-cache `get('trends')`: the stored value while `now` has not
passed the expiry, absent otherwise. -/
def cacheGet (now : Int) (c : Option TrendsCacheEntry) : Option TrendsResponse :=
  match c with
  | some e => if now ≤ e.expiresAt then some e.value else none
  | none => none

/-- Result of one `/api/trends` request: the JSON response, the cache as
left behind, and whether a round of upstream fetches was dispatched. -/
structure TrendsOutcome where
  response : TrendsResponse
  cache : Option TrendsCacheEntry
  fetched : Bool
  deriving DecidableEq, Repr

/-- The `/api/trends` handler (src/server.js 240-317): serve the cached
response when `cache.get('trends')` hits; otherwise fetch every category
(the `pytrends` entries call `getGoogleTrendsFromPython`, which is not
defined anywhere in this variant — the ReferenceError is caught by the
per-category catch, leaving `[]`; the `news`/`rss` entries call the
fail-soft adapters, abstracted as `env`), assemble the response with a
fresh timestamp, store it with the 600-second TTL and return it. -/
def trendsApi (now : Int) (cache : Option TrendsCacheEntry)
    (env : String → List String) : TrendsOutcome :=
  match cacheGet now cache with
  | some cached => ⟨cached, cache, false⟩
  | none =>
    let results := trendsCategories.map (fun p =>
      (p.1, match p.2 with
        | .pytrends => []
        | .news => env p.1
        | .rss => env p.1))
    let response : TrendsResponse :=
      { success := true, timestamp := now, cached := false, cats := results }
    ⟨response, some ⟨response, now + 600⟩, true⟩

/-- `category.charAt(0).toUpperCase() + category.slice(1)`
(src/server.js line 336). -/
def capitalizeFirst (s : String) : String :=
  match s.toList with
  | [] => ""
  | c :: rest => (c.toUpper :: rest).asString

/-- `keyword.replace(/,/g, ';')` (src/server.js line 337). -/
def replaceCommas (s : String) : String :=
  (s.toList.map (fun c => if c = ',' then ';' else c)).asString

/-- The CSV records of `/api/export` (src/server.js 331-341): one
(capitalized category, de-commaed keyword) pair per keyword of every
category entry of the cached response (the metadata keys are filtered
out, which the `cats` field already separates). -/
def exportRecords (t : TrendsResponse) : List (String × String) :=
  (t.cats.map (fun p =>
    p.2.map (fun keyword => (capitalizeFirst p.1, replaceCommas keyword)))).flatten

/-- `array.join('\n')`. -/
def joinLines : List String → String
  | [] => ""
  | [x] => x
  | x :: xs => x ++ "\n" ++ joinLines xs

/-- The CSV text of `/api/export` (src/server.js 350-355): header line
then one quoted row per record, all rows carrying the cached response's
timestamp. -/
def csvOf (t : TrendsResponse) : String :=
  joinLines ("Category,Keyword,Timestamp" ::
    (exportRecords t).map (fun r =>
      "\"" ++ r.1 ++ "\",\"" ++ r.2 ++ "\",\"" ++ toString t.timestamp ++ "\""))

/-- Response of `/api/export`: a 404 JSON error or a 200 `text/csv`
body. -/
inductive ExportResult where
  | notFound (error : String)
  | csv (body : String)
  deriving DecidableEq, Repr

/-- Whether an `/api/export` response is the 200 `text/csv` one. -/
def ExportResult.isCsv : ExportResult → Bool
  | .csv _ => true
  | .notFound _ => false

/-- Result of one `/api/export` request: the response and the cache as
left behind. -/
structure ExportOutcome where
  result : ExportResult
  cache : Option TrendsCacheEntry
  deriving DecidableEq, Repr

/-- The `/api/export` handler (src/server.js 320-369): 404 when
`cache.get('trends')` misses or the stored response is unsuccessful; 404
`No trend data to export` when the record list is empty; otherwise 200
with the CSV built from the cached response.  The handler only reads the
cache. -/
def exportApi (now : Int) (cache : Option TrendsCacheEntry) : ExportOutcome :=
  match cacheGet now cache with
  | none => ⟨.notFound "No trends data available. Please fetch trends first.", cache⟩
  | some trends =>
    if trends.success = false then
      ⟨.notFound "No trends data available. Please fetch trends first.", cache⟩
    else if exportRecords trends = [] then
      ⟨.notFound "No trend data to export", cache⟩
    else ⟨.csv (csvOf trends), cache⟩

end Server

namespace Part000

/-- The selector loop of `scrapeGoogleTrends` (src/unnamed/part_000
lines 62-80): for each selector in order, add each of its (trimmed)
element texts that is non-empty, of length in (2, 60), and not yet
collected; stop after the first selector that brings the total to 10 or
more. -/
def collectSelectors : List (List String) → List String → List String
  | [], acc => acc
  | sel :: rest, acc =>
    let acc2 := sel.foldl (fun a text =>
      let t := (trimChars text.toList).asString
      if t ≠ "" ∧ 2 < t.length ∧ t.length < 60 ∧ t ∉ a then a ++ [t] else a) acc
    if 10 ≤ acc2.length then acc2 else collectSelectors rest acc2

/-- `scrapeGoogleTrends` (src/unnamed/part_000 lines 42-89): on success,
the collected selector texts capped at 10, with an info log; on any
thrown failure, a log line naming the region and an empty list — this
variant has no fallback data. -/
def scrapeGoogleTrends (region : String)
    (r : FetchResult (List (List String))) : AdapterResult String :=
  match r with
  | .ok selectorTexts =>
    let trends := collectSelectors selectorTexts []
    ⟨trends.take 10,
      ["Scraped " ++ toString trends.length ++ " trends for " ++ region]⟩
  | .failure msg =>
    ⟨[], ["Google Trends scraping failed for " ++ region ++ ": " ++ msg]⟩

end Part000

namespace Part006

/-- The CDATA title and description matches that the two regexes of
`scrapeGoogleTrendsRSS` (src/unnamed/part_006 lines 410-432) extract
from the fetched XML, in match order. -/
structure RssPayload where
  titles : List String
  descs : List String
  deriving DecidableEq, Repr

/-- The `countryTrends` fallback table of `scrapeGoogleTrendsRSS`
(src/unnamed/part_006 lines 441-447): `countryTrends[region] ||
countryTrends['default']`. -/
def countryTrends (region : String) : List String :=
  if region = "KE" then
    ["Safaricom", "M-Pesa", "Nairobi", "William Ruto", "KCSE Results",
     "Kenya Airways", "Tusker", "KCB", "Equity Bank", "Maasai Mara"]
  else if region = "US" then
    ["Donald Trump", "Taylor Swift", "NFL", "iPhone", "ChatGPT",
     "Netflix", "Amazon", "Tesla", "Google", "YouTube"]
  else
    ["Technology", "Entertainment", "Sports", "News", "Health",
     "Science", "Business", "Fashion", "Travel", "Food"]

/-- `scrapeGoogleTrendsRSS` (src/unnamed/part_006 lines 396-449): on
success, collect the trimmed CDATA titles that are not the feed
boilerplate, of length in (2, 60) and new, then the trimmed descriptions
of length in (5, 60) that are new, and cap at 10; on any thrown failure,
log the region and return the hardcoded `countryTrends` list for the
region — the one adapter in the repo whose failure branch returns
non-empty fallback data. -/
def scrapeGoogleTrendsRSS (region : String)
    (r : FetchResult RssPayload) : AdapterResult String :=
  match r with
  | .ok p =>
    let fromTitles := p.titles.foldl (fun acc raw =>
      let title := (trimChars raw.toList).asString
      if title ≠ "" ∧ title ≠ "Daily Search Trends" ∧
          title ≠ ("Trending searches in " ++ region) ∧
          2 < title.length ∧ title.length < 60 ∧ title ∉ acc then
        acc ++ [title]
      else acc) []
    let trends := p.descs.foldl (fun acc raw =>
      let desc := (trimChars raw.toList).asString
      if desc ≠ "" ∧ 5 < desc.length ∧ desc.length < 60 ∧ desc ∉ acc then
        acc ++ [desc]
      else acc) fromTitles
    ⟨trends.take 10,
      ["Extracted " ++ toString trends.length ++ " trends from RSS for " ++ region]⟩
  | .failure msg =>
    ⟨countryTrends region,
      ["Google Trends RSS failed for " ++ region ++ ": " ++ msg]⟩

end Part006

/-! ### Concrete inputs used by witnesses and counterexamples -/

/-- An article literal with only title and link set, as the dedup claims
use. -/
def mkArt (t l : Option String) : Article :=
  ⟨t, l, none, none, none, none, none, none⟩

/-- An environment in which every external fetch fails and no GNews key
is configured. -/
def envAllFail : Server.Env :=
  { now := 0,
    scrapes := ⟨.failure "down", .failure "down", .failure "down", .failure "down",
                .failure "down", .failure "down", .failure "down", .failure "down"⟩,
    gnewsKey := false,
    gnews := .failure "down" }

/-- An adapter environment for the `/api/trends` handler in which every
category fetch yields nothing. -/
def emptyTrendsEnv : String → List String := fun _ => []

/-! ### The claims -/

/-- C1: the Deduplicator (`removeDuplicates`, src/server.js 459-484)
processes Articles in input order and drops an Article if and only if its
URL exactly matches a previously seen URL or its normalized title has a
symmetric similarity score above 0.85 against some previously retained
normalized title; every other Article is appended and its URL and
normalized title are added to the seen sets.  Formally: the similarity
score is symmetric, and on any list of Articles carrying both fields
present and non-empty (the data-model invariant: `title` is non-empty
text, `link` a URL — JS-truthy values that pass the `!article.title ||
!article.link` guard) the source function coincides with `specDedupAux`,
the process transcribed from the claim's wording. -/
theorem claim1_dedup_rule :
    (∀ a b, compareTwoStrings a b = compareTwoStrings b a) ∧
    ∀ l : List Article,
      (∀ x ∈ l, x.title ≠ none ∧ x.title ≠ some "" ∧
        x.link ≠ none ∧ x.link ≠ some "") →
      Server.removeDuplicates l = specDedupAux l [] [] :=
  ⟨compareTwoStrings_comm, fun l h => removeDuplicatesAux_eq_spec l [] [] h⟩

/-- Witness for C1 at a concrete three-article list containing a URL
duplicate and a near-duplicate title. -/
theorem claim1_dedup_rule_witness :
    (∀ x ∈ [mkArt (some "kenya power outage hits nairobi") (some "https://w.co/1"),
            mkArt (some "Kenya Power outage hits Nairobi!") (some "https://w.co/2"),
            mkArt (some "fuel prices rise again this month") (some "https://w.co/1")],
        x.title ≠ none ∧ x.title ≠ some "" ∧ x.link ≠ none ∧ x.link ≠ some "") ∧
    Server.removeDuplicates
        [mkArt (some "kenya power outage hits nairobi") (some "https://w.co/1"),
         mkArt (some "Kenya Power outage hits Nairobi!") (some "https://w.co/2"),
         mkArt (some "fuel prices rise again this month") (some "https://w.co/1")] =
      specDedupAux
        [mkArt (some "kenya power outage hits nairobi") (some "https://w.co/1"),
         mkArt (some "Kenya Power outage hits Nairobi!") (some "https://w.co/2"),
         mkArt (some "fuel prices rise again this month") (some "https://w.co/1")] [] [] :=
  ⟨by decide, claim1_dedup_rule.2 _ (by decide)⟩

/-- C4: the Deduplicator (src/server.js 459-484) is total on Articles
with a missing `title` or `link` — the guard drops such an Article
immediately (the embedded function is total by construction, mirroring
the `continue`) — and every Article of the output carries both fields. -/
theorem claim4_missing_fields_dropped :
    ∀ (l : List Article) (a : Article), a ∈ Server.removeDuplicates l →
      a.title ≠ none ∧ a.link ≠ none :=
  fun l a h => Server.mem_removeDuplicatesAux_fields l [] [] a h

/-- Witness for C4: on a list whose first and third articles lack a link
or a title, only the complete article survives, and the theorem yields
its field presence. -/
theorem claim4_missing_fields_dropped_witness :
    mkArt (some "a perfectly ordinary headline") (some "https://w.co/ok") ∈
      Server.removeDuplicates
        [mkArt none (some "https://w.co/1"),
         mkArt (some "a perfectly ordinary headline") (some "https://w.co/ok"),
         mkArt (some "an article without any link") none] ∧
    ((mkArt (some "a perfectly ordinary headline") (some "https://w.co/ok")).title ≠ none ∧
     (mkArt (some "a perfectly ordinary headline") (some "https://w.co/ok")).link ≠ none) :=
  ⟨by decide,
   claim4_missing_fields_dropped
     [mkArt none (some "https://w.co/1"),
      mkArt (some "a perfectly ordinary headline") (some "https://w.co/ok"),
      mkArt (some "an article without any link") none]
     (mkArt (some "a perfectly ordinary headline") (some "https://w.co/ok"))
     (by decide)⟩

/-- C5: the part_006 Deduplicator (src/unnamed/part_006 126-136, the
variant the minimum-length rule is observed in) drops every Article whose
normalized title has fewer than 10 characters, independent of URL or any
similarity comparison: whenever a run succeeds, no retained article has a
short normalized title. -/
theorem claim5_min_length_rejected :
    ∀ (l out : List Article) (a : Article) (t : String),
      Part006.removeDuplicates l = some out → a ∈ out → a.title = some t →
      ¬ (normalizeText t).length < 10 :=
  fun l out a t h ha hat => Part006.mem_removeDuplicatesAux_long l [] out a t h ha hat

/-- Witness for C5: the short-titled article (normalized title `hi`,
unique URL and title) is dropped and the long-titled one kept. -/
theorem claim5_min_length_rejected_witness :
    Part006.removeDuplicates
        [mkArt (some "Hi!") (some "https://w.co/1"),
         mkArt (some "a genuinely long headline") (some "https://w.co/2")] =
      some [mkArt (some "a genuinely long headline") (some "https://w.co/2")] ∧
    ¬ (normalizeText "a genuinely long headline").length < 10 :=
  ⟨by decide,
   claim5_min_length_rejected
     [mkArt (some "Hi!") (some "https://w.co/1"),
      mkArt (some "a genuinely long headline") (some "https://w.co/2")]
     [mkArt (some "a genuinely long headline") (some "https://w.co/2")]
     (mkArt (some "a genuinely long headline") (some "https://w.co/2"))
     "a genuinely long headline"
     (by decide) (by decide) rfl⟩

/-- C9: the Deduplicator is idempotent — re-running it on its own output
removes nothing further.  Proved for the src/server.js variant and, in
`Option.bind` form, for the part_006 variant (both cited by the
claim). -/
theorem claim9_dedup_idempotent :
    (∀ l : List Article,
      Server.removeDuplicates (Server.removeDuplicates l) = Server.removeDuplicates l) ∧
    (∀ l : List Article,
      (Part006.removeDuplicates l).bind Part006.removeDuplicates =
        Part006.removeDuplicates l) := by
  constructor
  · intro l
    exact Server.removeDuplicatesAux_idem l [] []
  · intro l
    rcases h : Part006.removeDuplicates l with _ | out
    · rfl
    · show Part006.removeDuplicates out = some out
      exact Part006.removeDuplicatesAux_second_pass l [] out h

/-- A two-article input of truthy-field articles whose second article
repeats the first's normalized title under a different URL reduces to its
first article: the first is retained (empty seen sets, truthiness guard
passed), the second passes the guard too but scores 1 > 0.85 against the
first's retained title. -/
theorem removeDuplicates_pair (a b : Article) (ta tb la lb : String)
    (hat : a.title = some ta) (hal : a.link = some la)
    (hbt : b.title = some tb) (hbl : b.link = some lb)
    (hta : ta ≠ "") (hla : la ≠ "") (htb : tb ≠ "") (hlb : lb ≠ "")
    (hne : lb ≠ la) (heq : normalizeText ta = normalizeText tb) :
    Server.removeDuplicates [a, b] = [a] := by
  have h1 : similarityThreshold < compareTwoStrings (normalizeText ta) (normalizeText tb) := by
    rw [heq, compareTwoStrings_self]
    exact similarityThreshold_lt_one
  simp [Server.removeDuplicates, Server.removeDuplicatesAux, hat, hal, hbt, hbl,
    hta, hla, htb, hlb, hne, h1]

/-- Counterexample to C8 as stated: in this three-article list the second
and third articles have identical normalized titles (`hello world abd`)
and distinct URLs, yet neither is retained — the second scores 11/12 >
0.85 against the first's retained title and the third then falls to the
same comparison — so "exactly one — the first-seen — is retained" fails
for that pair. -/
theorem claim8_counterexample :
    normalizeText "hello world abd" = normalizeText "Hello world abd!!" ∧
    (some "https://s.co/2" : Option String) ≠ some "https://s.co/3" ∧
    Server.removeDuplicates
        [mkArt (some "hello world abc") (some "https://s.co/1"),
         mkArt (some "hello world abd") (some "https://s.co/2"),
         mkArt (some "Hello world abd!!") (some "https://s.co/3")] =
      [mkArt (some "hello world abc") (some "https://s.co/1")] :=
  ⟨by decide, by decide, by decide⟩

/-- C8 (amended): for two Articles with identical normalized titles and
different URLs, at most one is retained — any two retained articles with
equal normalized titles are one and the same — and when the two articles
are the entire input (both fields present and non-empty, the data-model
invariant), exactly the first-seen is retained; with other articles
present, interference can drop both (see the counterexample). -/
theorem claim8_amended :
    (∀ (l : List Article) (a b : Article) (ta tb : String),
      a ∈ Server.removeDuplicates l → b ∈ Server.removeDuplicates l →
      a.title = some ta → b.title = some tb →
      normalizeText ta = normalizeText tb → a = b) ∧
    (∀ (a b : Article) (ta tb la lb : String),
      a.title = some ta → a.link = some la →
      b.title = some tb → b.link = some lb →
      ta ≠ "" → la ≠ "" → tb ≠ "" → lb ≠ "" →
      lb ≠ la → normalizeText ta = normalizeText tb →
      Server.removeDuplicates [a, b] = [a]) :=
  ⟨fun l a b ta tb ha hb hat hbt heq =>
    Server.mem_removeDuplicatesAux_norm_inj l [] [] a b ta tb ha hb hat hbt heq,
   removeDuplicates_pair⟩

/-- Witness for C8 (amended) at the spec's concrete scenario: `Ruto
visits Mombasa` / `ruto visits mombasa!!` normalize identically, the URLs
differ, and only the first-seen article survives. -/
theorem claim8_amended_witness :
    ("Ruto visits Mombasa" : String) ≠ "" ∧
    ("ruto visits mombasa!!" : String) ≠ "" ∧
    ("https://a.co/1" : String) ≠ "" ∧
    ("https://b.co/2" : String) ≠ "" ∧
    ("https://b.co/2" : String) ≠ "https://a.co/1" ∧
    normalizeText "Ruto visits Mombasa" = normalizeText "ruto visits mombasa!!" ∧
    Server.removeDuplicates
        [mkArt (some "Ruto visits Mombasa") (some "https://a.co/1"),
         mkArt (some "ruto visits mombasa!!") (some "https://b.co/2")] =
      [mkArt (some "Ruto visits Mombasa") (some "https://a.co/1")] :=
  ⟨by decide, by decide, by decide, by decide, by decide, by decide,
   claim8_amended.2
     (mkArt (some "Ruto visits Mombasa") (some "https://a.co/1"))
     (mkArt (some "ruto visits mombasa!!") (some "https://b.co/2"))
     "Ruto visits Mombasa" "ruto visits mombasa!!"
     "https://a.co/1" "https://b.co/2"
     rfl rfl rfl rfl (by decide) (by decide) (by decide) (by decide)
     (by decide) (by decide)⟩

/-- Counterexample to C2 as stated: `scrapeGoogleTrendsRSS` of
src/unnamed/part_006 (cited by the claim) does not return an empty
sequence on failure — its catch branch returns the hardcoded, non-empty
`countryTrends` list for the region. -/
theorem claim2_counterexample :
    (Part006.scrapeGoogleTrendsRSS "KE" (FetchResult.failure "timeout")).items =
      ["Safaricom", "M-Pesa", "Nairobi", "William Ruto", "KCSE Results",
       "Kenya Airways", "Tusker", "KCB", "Equity Bank", "Maasai Mara"] ∧
    (Part006.scrapeGoogleTrendsRSS "KE" (FetchResult.failure "timeout")).items ≠ [] :=
  ⟨rfl, by decide⟩

/-- C2 (amended): on any failure, every cited adapter returns control
without raising and logs the failure with its source identity; the strict
variants (`scrapeKenyansCo` of src/server.js, `scrapeGoogleTrends` of
part_000) return an empty sequence, but `scrapeGoogleTrendsRSS` of
part_006 instead returns its hardcoded country-trends fallback, which is
never empty. -/
theorem claim2_amended :
    (∀ (now : Int) (msg : String),
      Server.scrapeKenyansCo now (.failure msg) =
        ⟨[], ["Kenyans.co.ke scraping error: " ++ msg]⟩) ∧
    (∀ region msg : String,
      Part000.scrapeGoogleTrends region (.failure msg) =
        ⟨[], ["Google Trends scraping failed for " ++ region ++ ": " ++ msg]⟩) ∧
    (∀ region msg : String,
      Part006.scrapeGoogleTrendsRSS region (.failure msg) =
        ⟨Part006.countryTrends region,
         ["Google Trends RSS failed for " ++ region ++ ": " ++ msg]⟩) ∧
    (∀ region : String, Part006.countryTrends region ≠ []) := by
  refine ⟨fun _ _ => rfl, fun _ _ => rfl, fun _ _ => rfl, fun region => ?_⟩
  unfold Part006.countryTrends
  split_ifs <;> decide

/-- Items contributed by `scrapeKenyansCo` for each fetch outcome. -/
theorem scrapeKenyansCo_items (now : Int) (r : FetchResult (List RawCard)) :
    (Server.scrapeKenyansCo now r).items = r.onOk (Server.kenyansItems now) := by
  cases r <;> rfl

/-- Items contributed by `scrapeMpasho` for each fetch outcome. -/
theorem scrapeMpasho_items (now : Int) (r : FetchResult (List RawCard)) :
    (Server.scrapeMpasho now r).items = r.onOk (Server.mpashoItems now) := by
  cases r <;> rfl

/-- Items contributed by `scrapeGhafla` for each fetch outcome. -/
theorem scrapeGhafla_items (now : Int) (r : FetchResult (List RawCard)) :
    (Server.scrapeGhafla now r).items = r.onOk (Server.ghaflaItems now) := by
  cases r <;> rfl

/-- Items contributed by `scrapePulseSports` for each fetch outcome. -/
theorem scrapePulseSports_items (now : Int) (r : FetchResult (List RawCard)) :
    (Server.scrapePulseSports now r).items = r.onOk (Server.pulseSportsItems now) := by
  cases r <;> rfl

/-- Items contributed by `scrapeBusinessDaily` for each fetch outcome. -/
theorem scrapeBusinessDaily_items (now : Int) (r : FetchResult (List RawCard)) :
    (Server.scrapeBusinessDaily now r).items = r.onOk (Server.businessDailyItems now) := by
  cases r <;> rfl

/-- Items contributed by `scrapeStandardMedia` for each fetch outcome. -/
theorem scrapeStandardMedia_items (now : Int) (r : FetchResult (List RawCard)) :
    (Server.scrapeStandardMedia now r).items = r.onOk (Server.standardMediaItems now) := by
  cases r <;> rfl

/-- Items contributed by `scrapeRoyalMedia` for each fetch outcome. -/
theorem scrapeRoyalMedia_items (now : Int) (r : FetchResult (List RawCard)) :
    (Server.scrapeRoyalMedia now r).items = r.onOk (Server.royalMediaItems now) := by
  cases r <;> rfl

/-- Items contributed by `scrapeMediaMax` for each fetch outcome. -/
theorem scrapeMediaMax_items (now : Int) (r : FetchResult (List RawCard)) :
    (Server.scrapeMediaMax now r).items = r.onOk (Server.mediaMaxItems now) := by
  cases r <;> rfl

/-- C3: for any combination of per-adapter outcomes, the Fan-out
Collector's merged output is the concatenation, in the static adapter
list order, of each adapter's contribution, where a failed slot
contributes the empty list (`FetchResult.onOk` sends failures to `[]`)
and a successful slot contributes exactly its own mapped payload — and
the collection as a whole always succeeds (the collector is a total
function). -/
theorem claim3_fanout_isolation :
    (∀ (now : Int) (o : Server.ScrapeOutcomes),
      Server.scrapeAllSites now o =
        o.kenyans.onOk (Server.kenyansItems now) ++
        o.mpasho.onOk (Server.mpashoItems now) ++
        o.ghafla.onOk (Server.ghaflaItems now) ++
        o.pulse.onOk (Server.pulseSportsItems now) ++
        o.business.onOk (Server.businessDailyItems now) ++
        o.standard.onOk (Server.standardMediaItems now) ++
        o.royal.onOk (Server.royalMediaItems now) ++
        o.mediamax.onOk (Server.mediaMaxItems now)) ∧
    (∀ (msg : String) (f : List RawCard → List Article),
      (FetchResult.failure msg).onOk f = []) := by
  constructor
  · intro now o
    simp only [Server.scrapeAllSites, scrapeKenyansCo_items, scrapeMpasho_items,
      scrapeGhafla_items, scrapePulseSports_items, scrapeBusinessDaily_items,
      scrapeStandardMedia_items, scrapeRoyalMedia_items, scrapeMediaMax_items]
  · intro msg f
    rfl

/-- Counterexample to C6 as stated: a successful cached aggregate whose
category lists are all empty (reachable whenever every source fetch
returns nothing) makes `/api/export` answer the 404 `No trend data to
export`, not a 200 CSV. -/
theorem claim6_counterexample :
    Server.cacheGet 0 (some ⟨⟨true, 7, false, [("kenya", [])]⟩, 600⟩) =
      some ⟨true, 7, false, [("kenya", [])]⟩ ∧
    (⟨true, 7, false, [("kenya", [])]⟩ : Server.TrendsResponse).success = true ∧
    (Server.exportApi 0 (some ⟨⟨true, 7, false, [("kenya", [])]⟩, 600⟩)).result =
      .notFound "No trend data to export" ∧
    (Server.exportApi 0 (some ⟨⟨true, 7, false, [("kenya", [])]⟩, 600⟩)).result.isCsv =
      false :=
  ⟨by decide, rfl, by decide, by decide⟩

/-- C6 (amended): `/api/export` with no successful cached aggregate (no
entry, or an unsuccessful one) answers 404 `No trends data available.
Please fetch trends first.` with the cache untouched; with a successful
cached aggregate it answers 200 `text/csv` built from that aggregate when
the aggregate yields at least one record, and 404 `No trend data to
export` when it yields none — the cache untouched in every case. -/
theorem claim6_amended :
    (∀ (now : Int) (c : Option Server.TrendsCacheEntry),
      Server.cacheGet now c = none →
      Server.exportApi now c =
        ⟨.notFound "No trends data available. Please fetch trends first.", c⟩) ∧
    (∀ (now : Int) (c : Option Server.TrendsCacheEntry) (t : Server.TrendsResponse),
      Server.cacheGet now c = some t → t.success = false →
      Server.exportApi now c =
        ⟨.notFound "No trends data available. Please fetch trends first.", c⟩) ∧
    (∀ (now : Int) (c : Option Server.TrendsCacheEntry) (t : Server.TrendsResponse),
      Server.cacheGet now c = some t → t.success = true →
      Server.exportRecords t ≠ [] →
      Server.exportApi now c = ⟨.csv (Server.csvOf t), c⟩) ∧
    (∀ (now : Int) (c : Option Server.TrendsCacheEntry) (t : Server.TrendsResponse),
      Server.cacheGet now c = some t → t.success = true →
      Server.exportRecords t = [] →
      Server.exportApi now c = ⟨.notFound "No trend data to export", c⟩) := by
  refine ⟨?_, ?_, ?_, ?_⟩
  · intro now c h
    unfold Server.exportApi
    rw [h]
  · intro now c t h hs
    unfold Server.exportApi
    rw [h]
    simp [hs]
  · intro now c t h hs hr
    unfold Server.exportApi
    rw [h]
    simp [hs, hr]
  · intro now c t h hs hr
    unfold Server.exportApi
    rw [h]
    simp [hs, hr]

/-- Witness for C6 (amended), csv branch, at a one-record cached
aggregate. -/
theorem claim6_amended_witness :
    Server.cacheGet 0 (some ⟨⟨true, 7, false, [("kenya", ["Safaricom"])]⟩, 600⟩) =
      some ⟨true, 7, false, [("kenya", ["Safaricom"])]⟩ ∧
    (⟨true, 7, false, [("kenya", ["Safaricom"])]⟩ : Server.TrendsResponse).success = true ∧
    Server.exportRecords ⟨true, 7, false, [("kenya", ["Safaricom"])]⟩ ≠ [] ∧
    Server.exportApi 0 (some ⟨⟨true, 7, false, [("kenya", ["Safaricom"])]⟩, 600⟩) =
      ⟨.csv (Server.csvOf ⟨true, 7, false, [("kenya", ["Safaricom"])]⟩),
       some ⟨⟨true, 7, false, [("kenya", ["Safaricom"])]⟩, 600⟩⟩ :=
  ⟨by decide, rfl, by decide,
   claim6_amended.2.2.1 0 (some ⟨⟨true, 7, false, [("kenya", ["Safaricom"])]⟩, 600⟩)
     ⟨true, 7, false, [("kenya", ["Safaricom"])]⟩ (by decide) rfl (by decide)⟩

/-- Counterexample to C7 as stated: the identifier `SPORTS` is not in the
enumerated set (whose members are lower-case), yet the handler lower-cases
it first, accepts it, and dispatches the upstream fan-out instead of
answering 400. -/
theorem claim7_counterexample :
    "SPORTS" ∉ Server.validCategories ∧
    (Server.newsCategoryApi "SPORTS" [] envAllFail).fetched = true ∧
    (Server.newsCategoryApi "SPORTS" [] envAllFail).result.isBadRequest = false :=
  ⟨by decide, by decide, by decide⟩

/-- C7 (amended): for every identifier whose lower-cased form is not in
the enumerated category set, `/api/news/:category` answers 400 with the
valid category list in the body, dispatches no Source Adapter, and leaves
the cache exactly as it was. -/
theorem claim7_amended :
    ∀ (raw : String) (cache : List (String × Server.CategoryNewsResponse))
      (env : Server.Env),
      toLowerStr raw ∉ Server.validCategories →
      Server.newsCategoryApi raw cache env =
        ⟨.badRequest Server.validCategories, cache, false⟩ := by
  intro raw cache env h
  simp only [Server.newsCategoryApi]
  rw [if_pos h]

/-- Witness for C7 (amended) at the spec's concrete identifier. -/
theorem claim7_amended_witness :
    toLowerStr "not-a-real-category" ∉ Server.validCategories ∧
    Server.newsCategoryApi "not-a-real-category" [] envAllFail =
      ⟨.badRequest Server.validCategories, [], false⟩ :=
  ⟨by decide, claim7_amended "not-a-real-category" [] envAllFail (by decide)⟩

/-- C10: while the `trends` cache entry is populated and unexpired, the
aggregate endpoint dispatches no Source Adapter invocation and returns
the stored response with the cache untouched; and two calls within the
600-second TTL window (from an empty cache) trigger exactly one round of
upstream fetches, the second call's response — timestamp included —
being identical to the first's. -/
theorem claim10_cache_hit_skips_fetch :
    (∀ (now : Int) (c : Option Server.TrendsCacheEntry) (env : String → List String)
       (e : Server.TrendsCacheEntry),
      c = some e → now ≤ e.expiresAt →
      Server.trendsApi now c env = ⟨e.value, c, false⟩) ∧
    (∀ (t1 t2 : Int) (env1 env2 : String → List String),
      t1 ≤ t2 → t2 < t1 + 600 →
      (Server.trendsApi t1 none env1).fetched = true ∧
      (Server.trendsApi t2 (Server.trendsApi t1 none env1).cache env2).fetched = false ∧
      (Server.trendsApi t2 (Server.trendsApi t1 none env1).cache env2).response =
        (Server.trendsApi t1 none env1).response ∧
      (Server.trendsApi t2 (Server.trendsApi t1 none env1).cache env2).cache =
        (Server.trendsApi t1 none env1).cache) := by
  constructor
  · rintro now c env e rfl hle
    simp only [Server.trendsApi, Server.cacheGet, if_pos hle]
  · intro t1 t2 env1 env2 h12 hlt
    have hle : t2 ≤ t1 + 600 := le_of_lt hlt
    refine ⟨rfl, ?_, ?_, ?_⟩ <;>
      simp only [Server.trendsApi, Server.cacheGet, if_pos hle]

/-- Witness for C10 at two calls 300 seconds apart over an initially
empty cache and empty-handed adapters. -/
theorem claim10_cache_hit_skips_fetch_witness :
    ((0 : Int) ≤ 300) ∧ ((300 : Int) < 0 + 600) ∧
    ((Server.trendsApi 0 none emptyTrendsEnv).fetched = true ∧
     (Server.trendsApi 300 (Server.trendsApi 0 none emptyTrendsEnv).cache
        emptyTrendsEnv).fetched = false ∧
     (Server.trendsApi 300 (Server.trendsApi 0 none emptyTrendsEnv).cache
        emptyTrendsEnv).response = (Server.trendsApi 0 none emptyTrendsEnv).response ∧
     (Server.trendsApi 300 (Server.trendsApi 0 none emptyTrendsEnv).cache
        emptyTrendsEnv).cache = (Server.trendsApi 0 none emptyTrendsEnv).cache) :=
  ⟨by decide, by decide,
   claim10_cache_hit_skips_fetch.2 0 300 emptyTrendsEnv emptyTrendsEnv
     (by decide) (by decide)⟩
